import Mathlib

/-!
Verification of the TaskLock incremental build script
(`build_incremental.py`) against its natural-language specification.

The script consists of a static catalog `BUILD_STEPS` (a list of build
steps, each with a name, a list of source files and a list of
frameworks), two placeholder functions that only print a line, and a
`main` that prints a report of the catalog.  We embed the catalog and
the functions as pure Lean definitions; the effect of `print` is made
explicit as a list of emitted output strings, and the (never mutated)
global state is threaded as an explicit `ScriptState` value.
-/

/-- A build step of the catalog: a human-readable name, the cumulative
list of source files and the cumulative list of frameworks active at
this step.  Mirrors the dictionaries stored in `BUILD_STEPS` in
`build_incremental.py`. -/
structure BuildStep where
  name : String
  files : List String
  frameworks : List String
deriving DecidableEq

/-- Default step used with `List.getD` / `List.headD`. -/
def defaultStep : BuildStep := ⟨"", [], []⟩

/-- The static catalog from `build_incremental.py`, lines 12-78,
transcribed verbatim. -/
def BUILD_STEPS : List BuildStep := [
  ⟨"Step 1: SwiftUI + Models",
    ["TaskLockApp.swift", "ContentView.swift", "Models.swift"],
    ["SwiftUI"]⟩,
  ⟨"Step 2: Add PersistenceController",
    ["TaskLockApp.swift", "ContentView.swift", "Models.swift", "PersistenceController.swift"],
    ["SwiftUI"]⟩,
  ⟨"Step 3: Add Combine Framework",
    ["TaskLockApp.swift", "ContentView.swift", "Models.swift", "PersistenceController.swift"],
    ["SwiftUI", "Combine"]⟩,
  ⟨"Step 4: Add NotificationManager",
    ["TaskLockApp.swift", "ContentView.swift", "Models.swift", "PersistenceController.swift",
     "NotificationManager.swift"],
    ["SwiftUI", "Combine", "UserNotifications"]⟩,
  ⟨"Step 5: Add TaskManager",
    ["TaskLockApp.swift", "ContentView.swift", "Models.swift", "PersistenceController.swift",
     "NotificationManager.swift", "TaskManager.swift"],
    ["SwiftUI", "Combine", "UserNotifications"]⟩,
  ⟨"Step 6: Add BlockingManager",
    ["TaskLockApp.swift", "ContentView.swift", "Models.swift", "PersistenceController.swift",
     "NotificationManager.swift", "TaskManager.swift", "BlockingManager.swift"],
    ["SwiftUI", "Combine", "UserNotifications", "FamilyControls", "ManagedSettings",
     "DeviceActivity"]⟩,
  ⟨"Step 7: Add PolicyEngine",
    ["TaskLockApp.swift", "ContentView.swift", "Models.swift", "PersistenceController.swift",
     "NotificationManager.swift", "TaskManager.swift", "BlockingManager.swift",
     "PolicyEngine.swift"],
    ["SwiftUI", "Combine", "UserNotifications", "FamilyControls", "ManagedSettings",
     "DeviceActivity"]⟩,
  ⟨"Step 8: Add AnalyticsManager",
    ["TaskLockApp.swift", "ContentView.swift", "Models.swift", "PersistenceController.swift",
     "NotificationManager.swift", "TaskManager.swift", "BlockingManager.swift",
     "PolicyEngine.swift", "AnalyticsManager.swift"],
    ["SwiftUI", "Combine", "UserNotifications", "FamilyControls", "ManagedSettings",
     "DeviceActivity"]⟩,
  ⟨"Step 9: Add PhysicalUnlockManager",
    ["TaskLockApp.swift", "ContentView.swift", "Models.swift", "PersistenceController.swift",
     "NotificationManager.swift", "TaskManager.swift", "BlockingManager.swift",
     "PolicyEngine.swift", "AnalyticsManager.swift", "PhysicalUnlockManager.swift"],
    ["SwiftUI", "Combine", "UserNotifications", "FamilyControls", "ManagedSettings",
     "DeviceActivity"]⟩,
  ⟨"Step 10: Add AppState",
    ["TaskLockApp.swift", "ContentView.swift", "Models.swift", "PersistenceController.swift",
     "NotificationManager.swift", "TaskManager.swift", "BlockingManager.swift",
     "PolicyEngine.swift", "AnalyticsManager.swift", "PhysicalUnlockManager.swift",
     "AppState.swift"],
    ["SwiftUI", "Combine", "UserNotifications", "FamilyControls", "ManagedSettings",
     "DeviceActivity"]⟩,
  ⟨"Step 11: Add Charts Framework",
    ["TaskLockApp.swift", "ContentView.swift", "Models.swift", "PersistenceController.swift",
     "NotificationManager.swift", "TaskManager.swift", "BlockingManager.swift",
     "PolicyEngine.swift", "AnalyticsManager.swift", "PhysicalUnlockManager.swift",
     "AppState.swift"],
    ["SwiftUI", "Combine", "UserNotifications", "FamilyControls", "ManagedSettings",
     "DeviceActivity", "Charts"]⟩,
  ⟨"Step 12: Add MainTabView",
    ["TaskLockApp.swift", "ContentView.swift", "Models.swift", "PersistenceController.swift",
     "NotificationManager.swift", "TaskManager.swift", "BlockingManager.swift",
     "PolicyEngine.swift", "AnalyticsManager.swift", "PhysicalUnlockManager.swift",
     "AppState.swift", "MainTabView.swift"],
    ["SwiftUI", "Combine", "UserNotifications", "FamilyControls", "ManagedSettings",
     "DeviceActivity", "Charts"]⟩,
  ⟨"Step 13: Add All View Components",
    ["TaskLockApp.swift", "ContentView.swift", "Models.swift", "PersistenceController.swift",
     "NotificationManager.swift", "TaskManager.swift", "BlockingManager.swift",
     "PolicyEngine.swift", "AnalyticsManager.swift", "PhysicalUnlockManager.swift",
     "AppState.swift", "MainTabView.swift", "TaskViews.swift", "AddEditTaskViews.swift",
     "CategoryViews.swift", "AnalyticsViews.swift", "SettingsViews.swift",
     "BlockingOverlay.swift"],
    ["SwiftUI", "Combine", "UserNotifications", "FamilyControls", "ManagedSettings",
     "DeviceActivity", "Charts"]⟩
]

/-- Executable check that a binary relation holds between every pair
of consecutive elements of a list. -/
def chainOk (r : BuildStep → BuildStep → Bool) : List BuildStep → Bool
  | [] => true
  | [_] => true
  | a :: b :: rest => r a b && chainOk r (b :: rest)

/-- `chainOk` agrees with `List.Chain'`. -/
theorem chainOk_iff (r : BuildStep → BuildStep → Bool) :
    ∀ l : List BuildStep,
      chainOk r l = true ↔ List.Chain' (fun a b => r a b = true) l
  | [] => by simp [chainOk]
  | [a] => by simp [chainOk]
  | a :: b :: rest => by
    simp [chainOk, List.chain'_cons, chainOk_iff r (b :: rest)]

/-- Claim C1: for every step i > 1 of the catalog, step i-1's files
appear, in order, as a prefix of step i's files, and the very first
step's files list is non-empty. -/
theorem buildSteps_files_monotone :
    List.Chain' (fun a b : BuildStep => a.files.isPrefixOf b.files = true) BUILD_STEPS ∧
    (BUILD_STEPS.headD defaultStep).files ≠ [] :=
  ⟨(chainOk_iff (fun a b => a.files.isPrefixOf b.files) BUILD_STEPS).1 (by decide),
   by decide⟩

/-- Claim C2: for every step i > 1 of the catalog, step i-1's
frameworks appear, in order, as a prefix of step i's frameworks, and
the first step's frameworks list is non-empty. -/
theorem buildSteps_frameworks_monotone :
    List.Chain' (fun a b : BuildStep => a.frameworks.isPrefixOf b.frameworks = true)
      BUILD_STEPS ∧
    (BUILD_STEPS.headD defaultStep).frameworks ≠ [] :=
  ⟨(chainOk_iff (fun a b => a.frameworks.isPrefixOf b.frameworks) BUILD_STEPS).1 (by decide),
   by decide⟩

/-- Claim C3: the catalog has exactly 13 steps and its indices are
contiguous starting at 1: the step at 1-based position i has a name
beginning with the text "Step i:". -/
theorem buildSteps_indices_contiguous :
    BUILD_STEPS.length = 13 ∧
    ∀ i : Fin BUILD_STEPS.length,
      (("Step " ++ toString (i.val + 1) ++ ":").data).isPrefixOf
        (BUILD_STEPS.get i).name.data = true := by
  decide

/-- Claim C5: no catalog step is a no-op relative to its predecessor:
every pair of consecutive steps differs in its files list or in its
frameworks list. -/
theorem buildSteps_no_noop :
    List.Chain' (fun a b : BuildStep => a.files ≠ b.files ∨ a.frameworks ≠ b.frameworks)
      BUILD_STEPS := by
  have h := (chainOk_iff
    (fun a b => !(decide (a.files = b.files)) || !(decide (a.frameworks = b.frameworks)))
    BUILD_STEPS).1 (by decide)
  refine List.Chain'.imp ?_ h
  intro a b hab
  rcases Bool.or_eq_true_iff.1 hab with hf | hg
  · exact Or.inl (by simpa using hf)
  · exact Or.inr (by simpa using hg)

/-- Claim C4, counterexample: the claim asserts the files list stays
identical across steps 9 and 10, but step 10 (index 9) has a files
list different from step 9 (index 8): it additionally contains
AppState.swift. -/
theorem step9_step10_files_differ :
    (BUILD_STEPS.getD 8 defaultStep).files ≠ (BUILD_STEPS.getD 9 defaultStep).files := by
  decide

/-- Claim C4, amended: across consecutive steps 9 and 10 the
frameworks list stays identical, and the two steps differ only in
AppState.swift, which step 10 appends to step 9's files list. -/
theorem step9_step10_differ_only_in_appstate :
    (BUILD_STEPS.getD 8 defaultStep).frameworks = (BUILD_STEPS.getD 9 defaultStep).frameworks ∧
    (BUILD_STEPS.getD 9 defaultStep).files =
      (BUILD_STEPS.getD 8 defaultStep).files ++ ["AppState.swift"] := by
  decide

/-- Claim C9: within every catalog step, the files entries are
pairwise distinct and the frameworks entries are pairwise distinct. -/
theorem buildSteps_entries_nodup (s : BuildStep) (h : s ∈ BUILD_STEPS) :
    s.files.Nodup ∧ s.frameworks.Nodup := by
  have hall : ∀ x ∈ BUILD_STEPS, x.files.Nodup ∧ x.frameworks.Nodup := by decide
  exact hall s h

/-- Witness for C9 at the first catalog step. -/
theorem buildSteps_entries_nodup_witness :
    (BUILD_STEPS.headD defaultStep).files.Nodup ∧
    (BUILD_STEPS.headD defaultStep).frameworks.Nodup :=
  buildSteps_entries_nodup (BUILD_STEPS.headD defaultStep) (by decide)

/-- Claim C10: the increment of newly introduced files between the
consecutive steps 12 and 13 (indices 11 and 12) has six elements, so
per-step increments are not always singletons.  (Step 12's files form
a prefix of step 13's, so the dropped suffix is exactly the
increment.) -/
theorem step13_file_increment_has_six_elements :
    (BUILD_STEPS.getD 11 defaultStep).files.isPrefixOf
      (BUILD_STEPS.getD 12 defaultStep).files = true ∧
    ((BUILD_STEPS.getD 12 defaultStep).files.drop
      (BUILD_STEPS.getD 11 defaultStep).files.length).length = 6 ∧
    1 < ((BUILD_STEPS.getD 12 defaultStep).files.drop
      (BUILD_STEPS.getD 11 defaultStep).files.length).length := by
  decide

/-!
Embedding of the script's functions.  The only effect in the Python
source is `print`; we make it explicit by returning the list of
strings printed (one list entry per `print` call, each entry the
printed string).  The only global state is `BUILD_STEPS`; it is
threaded explicitly as a `ScriptState` so that "no global mutation"
becomes a provable statement.
-/

/-- The script's global state: the `BUILD_STEPS` table. -/
structure ScriptState where
  build_steps : List BuildStep
deriving DecidableEq

/-- The state the script starts in. -/
def initState : ScriptState := ⟨BUILD_STEPS⟩

/-- Lines printed by the script, one entry per `print` call. -/
abbrev Output := List String

/-- `update_project_file` from `build_incremental.py`, lines 80-85:
prints one line and does nothing else (the body beyond the `print` is
a comment).  Returns the unchanged state, the printed output and the
`None` return value. -/
def update_project_file (step : BuildStep) (st : ScriptState) :
    ScriptState × Output × Unit :=
  (st, ["Updating project for " ++ step.name], ())

/-- `test_build` from `build_incremental.py`, lines 87-91: prints one
line and does nothing else. -/
def test_build (st : ScriptState) : ScriptState × Output × Unit :=
  (st, ["Testing build..."], ())

/-- The three lines printed by one iteration of `main`'s loop for the
step at 1-based position `i`. -/
def mainStepOutput (i : Nat) (step : BuildStep) : Output :=
  ["\n" ++ toString i ++ ". " ++ step.name,
   "   Files: " ++ String.intercalate ", " step.files,
   "   Frameworks: " ++ String.intercalate ", " step.frameworks]

/-- The `for i, step in enumerate(BUILD_STEPS, 1)` loop of `main`,
lines 97-100. -/
def mainLoop : Nat → List BuildStep → Output
  | _, [] => []
  | i, step :: rest => mainStepOutput i step ++ mainLoop (i + 1) rest

/-- `main` from `build_incremental.py`, lines 93-108: prints the two
header lines, then iterates over the catalog printing three lines per
step; everything after the prints is a comment.  (Named `scriptMain`
because Lean reserves the name `main` for executable entry points.) -/
def scriptMain (st : ScriptState) : ScriptState × Output × Unit :=
  (st,
   ["TaskLock Incremental Build Script",
    String.mk (List.replicate 40 '=')] ++ mainLoop 1 st.build_steps,
   ())

theorem mainLoop_length (l : List BuildStep) : ∀ k : Nat, (mainLoop k l).length = 3 * l.length := by
  induction l with
  | nil => intro k; simp [mainLoop]
  | cons s rest ih =>
    intro k
    simp [mainLoop, mainStepOutput, ih]
    omega

theorem mainLoop_getElem (l : List BuildStep) :
    ∀ (k i : Nat) (s : BuildStep), l[i]? = some s →
      (mainLoop k l)[3 * i]? = some ("\n" ++ toString (k + i) ++ ". " ++ s.name) ∧
      (mainLoop k l)[3 * i + 1]? = some ("   Files: " ++ String.intercalate ", " s.files) ∧
      (mainLoop k l)[3 * i + 2]? =
        some ("   Frameworks: " ++ String.intercalate ", " s.frameworks) := by
  induction l with
  | nil => intro k i s h; simp at h
  | cons a t ih =>
    intro k i s h
    cases i with
    | zero =>
      rw [List.getElem?_cons_zero] at h
      obtain rfl : a = s := by simpa using h
      refine ⟨?_, ?_, ?_⟩ <;> simp [mainLoop, mainStepOutput]
    | succ i =>
      rw [List.getElem?_cons_succ] at h
      obtain ⟨g1, g2, g3⟩ := ih (k + 1) i s h
      have hm : mainLoop k (a :: t) = mainStepOutput k a ++ mainLoop (k + 1) t := rfl
      have hlen : (mainStepOutput k a).length = 3 := rfl
      refine ⟨?_, ?_, ?_⟩
      · rw [hm, List.getElem?_append_right (by omega)]
        rw [hlen]
        have : 3 * (i + 1) - 3 = 3 * i := by omega
        rw [this, g1]
        have : k + 1 + i = k + (i + 1) := by omega
        rw [this]
      · rw [hm, List.getElem?_append_right (by omega)]
        rw [hlen]
        have : 3 * (i + 1) + 1 - 3 = 3 * i + 1 := by omega
        rw [this, g2]
      · rw [hm, List.getElem?_append_right (by omega)]
        rw [hlen]
        have : 3 * (i + 1) + 2 - 3 = 3 * i + 2 := by omega
        rw [this, g3]

/-- Claim C6: the script's only effect is printing.  Each of
`update_project_file` and `test_build` prints exactly one line,
returns `None` and leaves the state unchanged, and `main` leaves the
state — in particular `BUILD_STEPS` — unchanged. -/
theorem script_print_only (step : BuildStep) (st : ScriptState) :
    (update_project_file step st).1 = st ∧
    (update_project_file step st).2.1 = ["Updating project for " ++ step.name] ∧
    (update_project_file step st).2.2 = () ∧
    (test_build st).1 = st ∧
    (test_build st).2.1 = ["Testing build..."] ∧
    (test_build st).2.2 = () ∧
    (scriptMain st).1 = st ∧
    (scriptMain initState).1.build_steps = BUILD_STEPS :=
  ⟨rfl, rfl, rfl, rfl, rfl, rfl, rfl, rfl⟩

/-- Claim C7: `main` reports every catalog step in order.  The output
starts with the two header lines, has exactly three lines per step
after them (so nothing is emitted out of order or twice), and for the
step at 0-based index `i` the three lines at positions `2 + 3 * i`
onward are its 1-based number with its name, its files joined by
", ", and its frameworks joined by ", ". -/
theorem main_reports_steps_in_order (st : ScriptState) (i : Nat) (s : BuildStep)
    (h : st.build_steps[i]? = some s) :
    (scriptMain st).2.1.length = 2 + 3 * st.build_steps.length ∧
    (scriptMain st).2.1[0]? = some "TaskLock Incremental Build Script" ∧
    (scriptMain st).2.1[1]? = some (String.mk (List.replicate 40 '=')) ∧
    (scriptMain st).2.1[2 + 3 * i]? = some ("\n" ++ toString (i + 1) ++ ". " ++ s.name) ∧
    (scriptMain st).2.1[2 + 3 * i + 1]? = some ("   Files: " ++ String.intercalate ", " s.files) ∧
    (scriptMain st).2.1[2 + 3 * i + 2]? =
      some ("   Frameworks: " ++ String.intercalate ", " s.frameworks) := by
  obtain ⟨g1, g2, g3⟩ := mainLoop_getElem st.build_steps 1 i s h
  have hm : (scriptMain st).2.1 =
      "TaskLock Incremental Build Script" :: String.mk (List.replicate 40 '=') ::
        mainLoop 1 st.build_steps := rfl
  refine ⟨?_, ?_, ?_, ?_, ?_, ?_⟩
  · rw [hm]
    simp only [List.length_cons, mainLoop_length]
    omega
  · rw [hm]
    exact List.getElem?_cons_zero
  · rw [hm, show (1 : Nat) = 0 + 1 by omega, List.getElem?_cons_succ]
    exact List.getElem?_cons_zero
  · rw [hm, show 2 + 3 * i = 3 * i + 1 + 1 by omega, List.getElem?_cons_succ,
      List.getElem?_cons_succ]
    rw [Nat.add_comm 1 i] at g1
    exact g1
  · rw [hm, show 2 + 3 * i + 1 = 3 * i + 1 + 1 + 1 by omega, List.getElem?_cons_succ,
      List.getElem?_cons_succ]
    exact g2
  · rw [hm, show 2 + 3 * i + 2 = 3 * i + 2 + 1 + 1 by omega, List.getElem?_cons_succ,
      List.getElem?_cons_succ]
    exact g3

/-- Witness for C7 at the initial state and the first catalog step. -/
theorem main_reports_steps_in_order_witness :
    (scriptMain initState).2.1[2 + 3 * 0]? =
      some ("\n" ++ toString (0 + 1) ++ ". " ++ "Step 1: SwiftUI + Models") :=
  (main_reports_steps_in_order initState 0
    ⟨"Step 1: SwiftUI + Models",
     ["TaskLockApp.swift", "ContentView.swift", "Models.swift"],
     ["SwiftUI"]⟩ rfl).2.2.2.1

/-!
The bisection engine.  The spec describes it as the core of the
intended program, but the source contains no implementation (its
`main` only prints the catalog); the definitions below are therefore
modelled from the spec, not translated from source code.
-/

/-- Modelled from the spec: the `status` of a `BuildOutcome`
(Success, Failure, or retryable Inconclusive).  The BuildRunner
implementation is absent from the source. -/
inductive BStatus
  | success
  | failure
  | inconclusive
deriving DecidableEq

/-- Modelled from the spec: the module/dependency configuration the
ProjectConfigurator applies before a build attempt. -/
structure Config where
  files : List String
  frameworks : List String
deriving DecidableEq

/-- The configuration a catalog step asks for. -/
def stepConfig (s : BuildStep) : Config := ⟨s.files, s.frameworks⟩

/-- The empty baseline configuration before any step is verified. -/
def emptyConfig : Config := ⟨[], []⟩

/-- Modelled from the spec: the default retry ceiling for
Inconclusive outcomes. -/
def retryCeiling : Nat := 3

/-- Modelled from the spec: terminal session states of the engine
(Aborted is reachable only through operator cancellation or
configurator errors, which are outside this model). -/
inductive SessionState
  | completed
  | aborted
deriving DecidableEq

/-- Modelled from the spec: the verdict of a bisection session — the
terminal state, the highest step index confirmed successful, and the
reported culprit, if any. -/
structure SessionResult where
  state : SessionState
  last_verified_index : Nat
  culprit : Option String
deriving DecidableEq

/-- Modelled from the spec: attempt one configuration, retrying
Inconclusive outcomes while the attempt count stays within the
ceiling; exceeding the ceiling demotes the outcome to Failure.  The
oracle `build` maps a configuration and an attempt number to an
outcome. -/
def resolveStep (build : Config → Nat → BStatus) (cfg : Config) :
    Nat → Nat → Bool
  | _, 0 => false
  | attempt, fuel + 1 =>
    match build cfg attempt with
    | BStatus.success => true
    | BStatus.failure => false
    | BStatus.inconclusive => resolveStep build cfg (attempt + 1) fuel

/-- Modelled from the spec: the ordered list of items newly introduced
by step `s` over the baseline configuration `base` — new modules
first, then new dependencies, preserving catalog order. -/
def newItems (base : Config) (s : BuildStep) : List String :=
  s.files.drop base.files.length ++ s.frameworks.drop base.frameworks.length

/-- Modelled from the spec: the synthetic half-step configuration made
of the baseline plus the first `taken` newly introduced items. -/
def syntheticConfig (base : Config) (s : BuildStep) (taken : Nat) : Config :=
  if taken ≤ s.files.length - base.files.length then
    ⟨base.files ++ (s.files.drop base.files.length).take taken, base.frameworks⟩
  else
    ⟨s.files,
     base.frameworks ++ (s.frameworks.drop base.frameworks.length).take
       (taken - (s.files.length - base.files.length))⟩

/-- Modelled from the spec: bisection over the half-open interval
`[lo, hi)` of new-item counts.  `test k` reports whether the
synthetic configuration with the first `k` new items builds; when the
(larger-first) half passes, the culprit is in the upper half,
otherwise in the lower half; converges to a single index. -/
def narrowRange (test : Nat → Bool) (lo hi : Nat) : Nat :=
  if h : hi ≤ lo + 1 then lo
  else if test (lo + (hi - lo + 1) / 2) then
    narrowRange test (lo + (hi - lo + 1) / 2) hi
  else
    narrowRange test lo (lo + (hi - lo + 1) / 2)
termination_by hi - lo
decreasing_by
  · omega
  · omega

/-- Modelled from the spec: the Narrowing phase — bisect over the
items newly introduced by the failing step `s` relative to the
verified baseline `base` and report the single culprit item. -/
def narrowCulprit (build : Config → Nat → BStatus) (base : Config) (s : BuildStep) :
    Option String :=
  (newItems base s)[narrowRange
    (fun k => resolveStep build (syntheticConfig base s k) 1 retryCeiling)
    0 (newItems base s).length]?

/-- Modelled from the spec: the Advancing phase of the engine.  Takes
the next unverified step; on (possibly retried) success it advances
with the step as the new baseline; on failure it narrows and reports
the culprit; when the catalog is exhausted the session is Completed
with no culprit. -/
def advance (build : Config → Nat → BStatus) :
    Config → List BuildStep → Nat → SessionResult
  | _, [], lvi => ⟨SessionState.completed, lvi, none⟩
  | base, s :: rest, lvi =>
    if resolveStep build (stepConfig s) 1 retryCeiling then
      advance build (stepConfig s) rest (lvi + 1)
    else
      ⟨SessionState.completed, lvi, narrowCulprit build base s⟩

/-- Modelled from the spec: a whole bisection session over a catalog,
starting from the empty baseline with `last_verified_index = 0`. -/
def runSession (build : Config → Nat → BStatus) (catalog : List BuildStep) :
    SessionResult :=
  advance build emptyConfig catalog 0

/-- The catalog monotonicity invariant of the spec's data model:
non-empty catalog, non-empty first module and dependency sets, and
prefix-compatible superset growth of both lists along the catalog. -/
def catalogOk (l : List BuildStep) : Prop :=
  l ≠ [] ∧
  (l.headD defaultStep).files ≠ [] ∧
  (l.headD defaultStep).frameworks ≠ [] ∧
  List.Chain' (fun a b : BuildStep => a.files.isPrefixOf b.files = true) l ∧
  List.Chain' (fun a b : BuildStep => a.frameworks.isPrefixOf b.frameworks = true) l

theorem resolveStep_of_success {build : Config → Nat → BStatus}
    (hb : ∀ c a, build c a = BStatus.success) (cfg : Config) (attempt fuel : Nat) :
    resolveStep build cfg attempt (fuel + 1) = true := by
  simp [resolveStep, hb]

theorem advance_of_success {build : Config → Nat → BStatus}
    (hb : ∀ c a, build c a = BStatus.success) :
    ∀ (l : List BuildStep) (base : Config) (lvi : Nat),
      advance build base l lvi = ⟨SessionState.completed, lvi + l.length, none⟩ := by
  intro l
  induction l with
  | nil => intro base lvi; simp [advance]
  | cons s rest ih =>
    intro base lvi
    have h3 : resolveStep build (stepConfig s) 1 retryCeiling = true :=
      resolveStep_of_success hb (stepConfig s) 1 2
    simp only [advance, h3, if_true, ih, SessionResult.mk.injEq, true_and, and_true,
      List.length_cons]
    omega

/-- Claim C8: for every catalog satisfying the monotonicity invariant,
if every step's build succeeds, the bisection session ends Completed
with `last_verified_index` equal to the number of catalog steps and no
culprit reported. -/
theorem session_all_success_completes (catalog : List BuildStep)
    (build : Config → Nat → BStatus) (hcat : catalogOk catalog)
    (hb : ∀ c a, build c a = BStatus.success) :
    runSession build catalog =
      ⟨SessionState.completed, catalog.length, none⟩ := by
  have h := advance_of_success hb catalog emptyConfig 0
  simpa [runSession] using h

/-- Witness for C8: the all-success oracle over the script's own
catalog ends Completed at step 13 with no culprit. -/
theorem session_all_success_completes_witness :
    runSession (fun _ _ => BStatus.success) BUILD_STEPS =
      ⟨SessionState.completed, 13, none⟩ :=
  session_all_success_completes BUILD_STEPS (fun _ _ => BStatus.success)
    ⟨by decide, by decide, by decide,
     (chainOk_iff (fun a b => a.files.isPrefixOf b.files) BUILD_STEPS).1 (by decide),
     (chainOk_iff (fun a b => a.frameworks.isPrefixOf b.frameworks) BUILD_STEPS).1
       (by decide)⟩
    (fun _ _ => rfl)
